import Mathlib

/-
Verification of the rubicon example notebooks and the documentation CI
workflow. The quick-look notebook (src/notebooks/quick-look.ipynb) drives an
external experiment-tracking client; we embed the notebook code itself:
the body of run_experiment as the trace of logging calls it issues, the
process-construction loop, the start/join loops, and the literal arguments
of the client calls. The git-integration notebook contributes one further
client instantiation. The workflow file (src/unnamed/part_000) is embedded
as its trigger set and its step list. The client library itself is not part
of the supplied sources; where a claim depends on its behavior (sync,
publish, open_catalog) the operation is modelled from the spec, and the
model is marked as such in its doc comment.
-/

namespace RubiconSpec

/-- Python values appearing as arguments in the notebooks: strings, booleans,
integers and (for metric values) rationals. Floating-point results such as
the value of accuracy_score are modelled as exact rationals. -/
inductive PyValue
  | str (s : String)
  | bool (b : Bool)
  | int (n : Int)
  | rat (q : ℚ)
deriving DecidableEq

/-- One logging call issued against the external client, recorded with the
id of the experiment it writes to. These are the six kinds of write that
run_experiment in quick-look.ipynb performs. -/
inductive LogEvent
  | logExperiment (expId : Nat) (model_name : String)
  | logParameter (expId : Nat) (name : String) (value : PyValue)
  | logFeature (expId : Nat) (name : String)
  | logMetric (expId : Nat) (name : String) (value : ℚ)
  | logDataframe (expId : Nat) (tags : List String)
  | addTags (expId : Nat) (tags : List String)
deriving DecidableEq

/-- The experiment id a logging call writes to. -/
def eventTarget : LogEvent → Nat
  | .logExperiment i _ => i
  | .logParameter i _ _ => i
  | .logFeature i _ => i
  | .logMetric i _ _ => i
  | .logDataframe i _ => i
  | .addTags i _ => i

def is_logExperiment : LogEvent → Bool
  | .logExperiment _ _ => true
  | _ => false

def is_logParameter : LogEvent → Bool
  | .logParameter _ _ _ => true
  | _ => false

def is_logFeature : LogEvent → Bool
  | .logFeature _ _ => true
  | _ => false

def is_logMetric : LogEvent → Bool
  | .logMetric _ _ _ => true
  | _ => false

def is_logDataframe : LogEvent → Bool
  | .logDataframe _ _ => true
  | _ => false

def is_addTags : LogEvent → Bool
  | .addTags _ _ => true
  | _ => false

/-- The trace of logging calls performed by one invocation of
run_experiment (quick-look.ipynb). The external client allocates a fresh
experiment when project.log_experiment is called; expId is that fresh id,
and every call the body makes goes through the returned experiment handle.
feature_names is wine.feature_names and accuracy is the value
metrics.accuracy_score returns for this run; both come from outside the
notebook code, so they are parameters here. The body, in order:
log_experiment with model_name equal to GaussianNB.__name__, the two
log_parameter calls, a log_feature per feature name, the classifier fit and
prediction (no logging), log_metric for accuracy, log_dataframe of the
confusion matrix with tag "confusion matrix", and finally add_tags with
["success"] when accuracy >= .9 and with ["failure"] otherwise. -/
def runExperiment (expId : Nat) (is_standardized : Bool) (n_components : Nat)
    (feature_names : List String) (accuracy : ℚ) : List LogEvent :=
  [LogEvent.logExperiment expId "GaussianNB",
   LogEvent.logParameter expId "is_standardized" (PyValue.bool is_standardized),
   LogEvent.logParameter expId "n_components" (PyValue.int n_components)]
  ++ feature_names.map (fun name => LogEvent.logFeature expId name)
  ++ [LogEvent.logMetric expId "accuracy" accuracy,
      LogEvent.logDataframe expId ["confusion matrix"]]
  ++ (if accuracy ≥ 9/10
      then [LogEvent.addTags expId ["success"]]
      else [LogEvent.addTags expId ["failure"]])

/-- The part of the run_experiment trace that precedes the final add_tags
call; used to factor runExperiment as a concatenation. -/
def frontEvents (expId : Nat) (is_standardized : Bool) (n_components : Nat)
    (feature_names : List String) (accuracy : ℚ) : List LogEvent :=
  [LogEvent.logExperiment expId "GaussianNB",
   LogEvent.logParameter expId "is_standardized" (PyValue.bool is_standardized),
   LogEvent.logParameter expId "n_components" (PyValue.int n_components)]
  ++ feature_names.map (fun name => LogEvent.logFeature expId name)
  ++ [LogEvent.logMetric expId "accuracy" accuracy,
      LogEvent.logDataframe expId ["confusion matrix"]]

/-- Python range(start, stop, step) for a positive step: the values start,
start+step, ... strictly below stop. -/
def pyRange (start stop step : Nat) : List Nat :=
  List.range' start ((stop - start + step - 1) / step) step

/-- A worker process as constructed in the quick-look notebook: each
multiprocessing.Process captures run_experiment, the shared project, and
the kwargs is_standardized and n_components. -/
structure Process where
  is_standardized : Bool
  n_components : Nat
deriving DecidableEq

/-- The (is_standardized, n_components) pairs enumerated by the nested loop
over [True, False] and range(1, 15, 2). -/
def configurations : List (Bool × Nat) :=
  [true, false].flatMap (fun is_standardized =>
    (pyRange 1 15 2).map (fun n_components => (is_standardized, n_components)))

/-- The list of worker processes the loop appends, one per configuration. -/
def processes : List Process :=
  configurations.map (fun c => Process.mk c.1 c.2)

/-- The trace of writes performed by worker process k: run_experiment with
the configuration captured by that process, against the experiment id the
client handed that invocation. ids gives each process its experiment id,
and accs the accuracy its run produced. -/
def processTrace (ids : Fin processes.length → Nat) (fns : List String)
    (accs : Fin processes.length → ℚ) (k : Fin processes.length) :
    List LogEvent :=
  runExperiment (ids k) (processes.get k).is_standardized
    (processes.get k).n_components fns (accs k)

/-- Process lifecycle calls as made by the two loops of the notebook,
identified by the index of the process in the list. -/
inductive ProcEvent
  | start (i : Nat)
  | join (i : Nat)
deriving DecidableEq

def is_start : ProcEvent → Bool
  | .start _ => true
  | _ => false

def is_join : ProcEvent → Bool
  | .join _ => true
  | _ => false

/-- The sequence of lifecycle calls the notebook makes: one for-loop calling
process.start() on every process, then a second for-loop calling
process.join() on every process. -/
def runTrace : List ProcEvent :=
  (List.range processes.length).map ProcEvent.start
  ++ (List.range processes.length).map ProcEvent.join

/-- A persistence location, as a map from project name to the list of
experiment ids logged under that project. -/
abbrev Store := List (String × List Nat)

/-- Look a project up by name in a store, as get_project does. -/
def getProject (store : Store) (name : String) : Option (List Nat) :=
  (store.find? (fun p => p.1 == name)).map Prod.snd

/-- Modelled from the spec: the implementation of rubicon.sync is not among
the supplied sources. Per the notebook text, sync copies a locally logged
project, experiments included, to the S3 location, so we model it as
copying the named project from the local store into the S3 store. -/
def sync (localStore s3Store : Store) (name : String) : Store :=
  match getProject localStore name with
  | some exps => (name, exps) :: s3Store
  | none => s3Store

/-- Modelled from the spec: the implementation of publish is not among the
supplied sources. Per the spec, publish produces a single YAML catalog file
at the given output_filepath without changing or moving the logged data, so
we model it as writing exactly one file into a path-indexed file store. -/
def publish (files : List (String × String)) (output_filepath : String)
    (catalog : String) : List (String × String) :=
  (output_filepath, catalog) :: files

/-- Modelled from the spec: intake.open_catalog is a third-party consumer
that reads the catalog file at the given path from the file store. -/
def open_catalog (files : List (String × String)) (path : String) :
    Option String :=
  (files.find? (fun f => f.1 == path)).map Prod.snd

/-- The output_filepath argument passed to publish in quick-look.ipynb. -/
def publish_output_filepath : String := "./wine_catalog.yml"

/-- The path argument later passed to intake.open_catalog. -/
def open_catalog_path : String := "./wine_catalog.yml"

/-- GitHub events relevant to the workflow trigger configuration; a release
event carries its activity type. -/
inductive GithubEvent
  | release (action : String)
  | workflow_dispatch
  | push
  | pull_request
  | schedule
deriving DecidableEq

/-- The release activity types listed under the on.release trigger of the
Publish docs workflow: types [created]. -/
def publish_docs_release_types : List String := ["created"]

/-- Whether an event starts the Publish docs workflow, per its on block:
release (for the listed types) and workflow_dispatch. -/
def publish_docs_triggered : GithubEvent → Bool
  | .release action => publish_docs_release_types.contains action
  | .workflow_dispatch => true
  | _ => false

/-- One step of the build-and-deploy job. withArgs embeds the step's with
mapping; run holds the script of a run step. -/
structure Step where
  step_name : Option String
  uses : Option String
  run : Option String
  shell : Option String
  withArgs : List (String × String)
deriving DecidableEq

/-- The steps of the build-and-deploy job of the Publish docs workflow, in
order, transcribed from the workflow file. -/
def build_and_deploy_steps : List Step :=
  [⟨none, some "actions/checkout@v2", none, none, [("fetch-depth", "0")]⟩,
   ⟨some "Set up Python", some "actions/setup-python@v2", none, none,
     [("python-version", "3.8")]⟩,
   ⟨some "Add conda to system path", none,
     some "echo $CONDA/bin >> $GITHUB_PATH", none, []⟩,
   ⟨some "Install dependencies", none,
     some "conda env update --file docs/docs-environment.yml --name base",
     none, []⟩,
   ⟨some "Build", none, some "cd docs\nbash build-docs.sh", some "bash", []⟩,
   ⟨some "Publish", some "JamesIves/github-pages-deploy-action@4.0.0", none,
     none, [("branch", "gh-pages"), ("folder", "docs/build/html")]⟩]

/-- Python str.startswith, over the character lists of the strings. -/
def str_starts_with (s p : String) : Bool := p.data.isPrefixOf s.data

/-- Whether a root_dir string is an S3 URI. -/
def is_s3_uri (s : String) : Bool := str_starts_with s "s3://"

/-- Whether a root_dir string is a local path: relative to the working
directory or absolute. -/
def is_local_path (s : String) : Bool :=
  str_starts_with s "./" || str_starts_with s "/"

/-- The keyword arguments of every Rubicon(...) instantiation in the
supplied notebooks: quick-look.ipynb creates the local client and the S3
client, git-integration.ipynb creates the in-memory client. -/
def rubicon_instantiations : List (List (String × PyValue)) :=
  [[("persistence", PyValue.str "filesystem"),
    ("root_dir", PyValue.str "./rubicon-root")],
   [("persistence", PyValue.str "filesystem"),
    ("root_dir", PyValue.str "s3://my-bucket/path/to/rubicon-root")],
   [("persistence", PyValue.str "memory"),
    ("auto_git_enabled", PyValue.bool true)]]

def valid_persistence : PyValue → Bool
  | .str s => s == "filesystem" || s == "memory"
  | _ => false

def valid_root_dir : PyValue → Bool
  | .str s => is_local_path s || is_s3_uri s
  | _ => false

def valid_auto_git_enabled : PyValue → Bool
  | .bool _ => true
  | _ => false

/-- The constraint the constructor configuration surface places on one
keyword argument, keyed by its name. -/
def valid_kwarg (kv : String × PyValue) : Bool :=
  if kv.1 == "persistence" then valid_persistence kv.2
  else if kv.1 == "root_dir" then valid_root_dir kv.2
  else if kv.1 == "auto_git_enabled" then valid_auto_git_enabled kv.2
  else true

/-- Helper: the feature-logging block never produces an addTags event. -/
lemma countP_addTags_map_logFeature (expId : Nat) (fns : List String) :
    (fns.map (fun name => LogEvent.logFeature expId name)).countP
      (fun e => is_addTags e) = 0 := by
  induction fns with
  | nil => rfl
  | cons a l ih => simp [List.countP_cons, is_addTags, ih]

/-- Helper: filtering the feature-logging block by a predicate false on
logFeature events gives the empty list. -/
lemma filter_map_logFeature_none (expId : Nat) (fns : List String)
    (p : LogEvent → Bool)
    (hp : ∀ nm, p (LogEvent.logFeature expId nm) = false) :
    (fns.map (fun name => LogEvent.logFeature expId name)).filter p = [] := by
  induction fns with
  | nil => rfl
  | cons a l ih => simp [List.filter_cons, hp, ih]

/-- Helper: filtering the feature-logging block for logFeature events keeps
all of it. -/
lemma filter_map_logFeature_self (expId : Nat) (fns : List String) :
    (fns.map (fun name => LogEvent.logFeature expId name)).filter
      (fun e => is_logFeature e)
      = fns.map (fun name => LogEvent.logFeature expId name) := by
  induction fns with
  | nil => rfl
  | cons a l ih => simp [List.filter_cons, is_logFeature, ih]

/-- Helper: the run_experiment trace is its front followed by the one
add_tags call. -/
lemma runExperiment_eq_concat (expId : Nat) (s : Bool) (n : Nat)
    (fns : List String) (acc : ℚ) :
    runExperiment expId s n fns acc = frontEvents expId s n fns acc
      ++ [if acc ≥ 9/10 then LogEvent.addTags expId ["success"]
          else LogEvent.addTags expId ["failure"]] := by
  by_cases h : acc ≥ 9/10 <;> simp [runExperiment, frontEvents, h]

/-- Helper: every logging call in the run_experiment trace writes to the
experiment that invocation created. -/
lemma eventTarget_of_mem (expId : Nat) (s : Bool) (n : Nat)
    (fns : List String) (acc : ℚ) (e : LogEvent)
    (he : e ∈ runExperiment expId s n fns acc) : eventTarget e = expId := by
  rw [runExperiment_eq_concat] at he
  by_cases h : acc ≥ 9/10 <;>
  · simp [frontEvents, h, List.mem_append, List.mem_cons, List.mem_map] at he
    rcases he with rfl | rfl | rfl | ⟨nm, hnm, rfl⟩ | rfl | rfl | rfl <;> rfl

/-- Claim C1: in run_experiment, after the accuracy metric is computed, the
experiment is tagged "success" exactly when accuracy >= 0.9 and is tagged
"failure" otherwise; for every run exactly one add_tags call is made, so
exactly one of the two tags is added. -/
theorem runExperiment_tag_rule (expId : Nat) (s : Bool) (n : Nat)
    (fns : List String) (acc : ℚ) :
    (LogEvent.addTags expId ["success"] ∈ runExperiment expId s n fns acc
      ↔ acc ≥ 9/10)
    ∧ (LogEvent.addTags expId ["failure"] ∈ runExperiment expId s n fns acc
      ↔ ¬ acc ≥ 9/10)
    ∧ (runExperiment expId s n fns acc).countP (fun e => is_addTags e) = 1 := by
  by_cases h : acc ≥ 9/10 <;>
    simp [runExperiment, h, List.countP_append,
      countP_addTags_map_logFeature, List.countP_cons, is_addTags]

/-- Claim C2: the process-construction loop over is_standardized in
[True, False] and n_components in range(1, 15, 2) creates exactly 14 worker
processes, one per (is_standardized, n_components) configuration, and the
14 configurations are pairwise distinct. -/
theorem processes_fourteen_distinct :
    processes.length = 14
    ∧ configurations.length = 14
    ∧ configurations.Nodup
    ∧ processes.Nodup
    ∧ processes.map (fun p => (p.is_standardized, p.n_components))
        = configurations := by
  decide

/-- Claim C3: after sync copies the named project to the S3 store, a client
reading the project by the same name from the S3 store sees an experiment
list of the same length as the original local project, which is the
assertion of quick-look.ipynb. -/
theorem sync_preserves_experiment_count (localStore s3Store : Store)
    (name : String) (exps : List Nat)
    (h : getProject localStore name = some exps) :
    (getProject (sync localStore s3Store name) name).map List.length
      = (getProject localStore name).map List.length := by
  unfold sync
  rw [h]
  simp [getProject, h]

/-- Witness for claim C3 at a concrete local store holding the project
"Wine Classification" with three experiments and an empty S3 store. -/
theorem sync_preserves_experiment_count_witness :
    (getProject (sync [("Wine Classification", [0, 1, 2])] []
        "Wine Classification") "Wine Classification").map List.length
      = (getProject [("Wine Classification", [0, 1, 2])]
        "Wine Classification").map List.length :=
  sync_preserves_experiment_count _ _ _ [0, 1, 2] rfl

/-- Claim C4: every one of the 14 worker processes is started and every one
is joined, and in the call sequence every start call precedes every join
call: no position holding a join comes before a position holding a start. -/
theorem all_starts_precede_all_joins :
    (∀ i : Fin processes.length, ProcEvent.start i.val ∈ runTrace)
    ∧ (∀ i : Fin processes.length, ProcEvent.join i.val ∈ runTrace)
    ∧ (∀ a b : Fin runTrace.length,
        is_start (runTrace.get a) → is_join (runTrace.get b) →
          a.val < b.val) := by
  decide

/-- Claim C5: the worker processes perform independent writes to the one
shared project: each process writes only to the fresh experiment its own
run_experiment invocation logged, so as long as the external client hands
each invocation a distinct fresh experiment id, no two processes write to
the same experiment. -/
theorem processes_write_disjoint (ids : Fin processes.length → Nat)
    (hinj : Function.Injective ids) (fns : List String)
    (accs : Fin processes.length → ℚ) :
    (∀ k, ∀ e ∈ processTrace ids fns accs k, eventTarget e = ids k)
    ∧ ∀ k l, k ≠ l → ∀ e ∈ processTrace ids fns accs k,
        ∀ f ∈ processTrace ids fns accs l, eventTarget e ≠ eventTarget f := by
  refine ⟨fun k e he => eventTarget_of_mem _ _ _ _ _ _ he, ?_⟩
  intro k l hkl e he f hf
  rw [eventTarget_of_mem _ _ _ _ _ _ he, eventTarget_of_mem _ _ _ _ _ _ hf]
  exact fun hh => hkl (hinj hh)

/-- Witness for claim C5: with the identity id assignment, the experiment
creation writes of processes 0 and 1 target different experiments. -/
theorem processes_write_disjoint_witness :
    eventTarget (LogEvent.logExperiment 0 "GaussianNB")
      ≠ eventTarget (LogEvent.logExperiment 1 "GaussianNB") :=
  (processes_write_disjoint (fun k => k.val) (fun a b hh => Fin.ext hh)
      ["alcohol"] (fun _ => 1)).2
    ⟨0, by decide⟩ ⟨1, by decide⟩ (by decide)
    (LogEvent.logExperiment 0 "GaussianNB")
      (by simp [processTrace, runExperiment, processes, configurations,
        pyRange])
    (LogEvent.logExperiment 1 "GaussianNB")
      (by simp [processTrace, runExperiment, processes, configurations,
        pyRange])

/-- Claim C6: publish writes a single catalog file at the given
output_filepath "./wine_catalog.yml", that is the same path later passed to
intake.open_catalog, and opening the catalog at that path reads back
exactly the file publish wrote. -/
theorem publish_catalog_roundtrip (files : List (String × String))
    (catalog : String) :
    publish_output_filepath = open_catalog_path
    ∧ publish files publish_output_filepath catalog
        = (publish_output_filepath, catalog) :: files
    ∧ open_catalog (publish files publish_output_filepath catalog)
        open_catalog_path = some catalog := by
  refine ⟨rfl, rfl, ?_⟩
  simp [open_catalog, publish, publish_output_filepath, open_catalog_path]

/-- Claim C7: the Publish docs workflow is triggered exactly by a release
event with type created or by manual dispatch; no other event starts it. -/
theorem publish_docs_trigger_set (e : GithubEvent) :
    publish_docs_triggered e = true
      ↔ (e = GithubEvent.release "created"
          ∨ e = GithubEvent.workflow_dispatch) := by
  cases e <;>
    simp [publish_docs_triggered, publish_docs_release_types, List.contains]

/-- Claim C8: the build-and-deploy job has a Build step that runs the shell
script build-docs.sh inside the docs directory, followed later by a Publish
step that deploys docs/build/html to the gh-pages branch through
JamesIves/github-pages-deploy-action. -/
theorem build_then_publish_steps :
    ∃ i j : Fin build_and_deploy_steps.length, i.val < j.val
    ∧ (build_and_deploy_steps.get i).step_name = some "Build"
    ∧ (build_and_deploy_steps.get i).run = some "cd docs\nbash build-docs.sh"
    ∧ (build_and_deploy_steps.get j).step_name = some "Publish"
    ∧ (build_and_deploy_steps.get j).uses
        = some "JamesIves/github-pages-deploy-action@4.0.0"
    ∧ ("branch", "gh-pages") ∈ (build_and_deploy_steps.get j).withArgs
    ∧ ("folder", "docs/build/html") ∈ (build_and_deploy_steps.get j).withArgs := by
  exact ⟨⟨4, by decide⟩, ⟨5, by decide⟩, by decide, rfl, rfl, rfl, rfl,
    by decide, by decide⟩

/-- Claim C9: in every Rubicon(...) instantiation of the supplied examples,
the persistence argument is "filesystem" or "memory", the root_dir argument
when given is a local path or an s3:// URI, and the auto_git_enabled
argument when given is a bool. -/
theorem rubicon_instantiations_valid (kwargs : List (String × PyValue))
    (hk : kwargs ∈ rubicon_instantiations) :
    kwargs.all valid_kwarg = true := by
  fin_cases hk <;> decide

/-- Witness for claim C9 at the git-integration instantiation. -/
theorem rubicon_instantiations_valid_witness :
    ([("persistence", PyValue.str "memory"),
      ("auto_git_enabled", PyValue.bool true)] :
        List (String × PyValue)).all valid_kwarg = true :=
  rubicon_instantiations_valid _ (by decide)

/-- Claim C10: one invocation of run_experiment logs exactly one fresh
experiment, and to it exactly two parameters named is_standardized and
n_components bound to the call arguments, one feature per entry of
wine.feature_names, exactly one metric named accuracy, and exactly one
dataframe tagged "confusion matrix", all before the single success/failure
tag is added. -/
theorem runExperiment_log_inventory (expId : Nat) (s : Bool) (n : Nat)
    (fns : List String) (acc : ℚ) :
    (runExperiment expId s n fns acc).filter (fun e => is_logExperiment e)
        = [LogEvent.logExperiment expId "GaussianNB"]
    ∧ (runExperiment expId s n fns acc).filter (fun e => is_logParameter e)
        = [LogEvent.logParameter expId "is_standardized" (PyValue.bool s),
           LogEvent.logParameter expId "n_components" (PyValue.int n)]
    ∧ (runExperiment expId s n fns acc).filter (fun e => is_logFeature e)
        = fns.map (fun name => LogEvent.logFeature expId name)
    ∧ (runExperiment expId s n fns acc).filter (fun e => is_logMetric e)
        = [LogEvent.logMetric expId "accuracy" acc]
    ∧ (runExperiment expId s n fns acc).filter (fun e => is_logDataframe e)
        = [LogEvent.logDataframe expId ["confusion matrix"]]
    ∧ (runExperiment expId s n fns acc).countP (fun e => is_addTags e) = 1
    ∧ (runExperiment expId s n fns acc).dropLast.countP
        (fun e => is_addTags e) = 0 := by
  rw [runExperiment_eq_concat, List.dropLast_concat]
  by_cases h : acc ≥ 9/10 <;>
    simp [frontEvents, h, List.filter_append, List.filter_cons,
      List.countP_append, List.countP_cons, filter_map_logFeature_none,
      filter_map_logFeature_self, countP_addTags_map_logFeature,
      is_logExperiment, is_logParameter, is_logFeature, is_logMetric,
      is_logDataframe, is_addTags]

end RubiconSpec
